import Mathlib

/-!
Shallow embedding of
`src/packages/cactus-test-tooling/src/main/typescript/chia/chia-test-ledger.ts`
(the `ChiaTestLedger` class) together with the theorems settling the claims
about it.  Promises are modelled with `Except` (a rejected promise is
`Except.error`), a synchronous JavaScript throw is kept apart from a promise
result where a claim distinguishes the two, and the calls issued to the
container runtime are recorded as explicit traces.
-/

namespace Chia

/-- Opaque container reference returned by the runtime; `dockerode` exposes a
stable `id` string on it. -/
structure Container where
  id : String
deriving DecidableEq, Repr

/-- One entry of `NetworkSettings.Networks` as reported by the runtime. -/
structure Network where
  IPAddress : String
deriving DecidableEq, Repr

/-- The `NetworkSettings` object of a `ContainerInfo`: `Networks` is a
JavaScript object mapping network name to network data; we model it as an
association list in the enumeration order of `Object.keys`. -/
structure NetworkSettings where
  Networks : List (String × Network)
deriving DecidableEq, Repr

/-- `dockerode` `ContainerInfo` restricted to the fields the class reads. -/
structure ContainerInfo where
  Id : String
  Status : String
  State : String
  NetworkSettings : Chia.NetworkSettings
deriving DecidableEq, Repr

/-- `IChiaTestLedgerConstructorOptions`; every field is optional in the
TypeScript interface (`logLevel` only feeds the logger and is omitted). -/
structure IChiaTestLedgerConstructorOptions where
  imageVersion : Option String := none
  imageName : Option String := none
  envVars : Option (List String) := none
  emitContainerLogs : Option Bool := none
deriving DecidableEq, Repr

/-- The frozen `DEFAULTS` object, field `imageName`. -/
def DEFAULTS_imageName : String := "ghcr.io/hyperledger/chia-all-in-one"

/-- The frozen `DEFAULTS` object, field `imageVersion`. -/
def DEFAULTS_imageVersion : String := "v1.0.0"

/-- The frozen `DEFAULTS` object, field `envVars`. -/
def DEFAULTS_envVars : List String := [""]

/-- JavaScript `v || dflt` on a possibly-undefined string: `undefined` and
the empty string are falsy, every other string is truthy. -/
def jsOrString (v : Option String) (dflt : String) : String :=
  match v with
  | none => dflt
  | some s => if s = "" then dflt else s

/-- The readonly configuration fields the constructor stores on the
instance. -/
structure LedgerConfig where
  imageVersion : String
  imageName : String
  emitContainerLogs : Bool
  envVars : List String
deriving DecidableEq, Repr

/-- The constructor body: `imageVersion`/`imageName` fall back to the
defaults through `||`, `emitContainerLogs` defaults to `true` unless a
strict boolean was passed, `envVars` falls back to `DEFAULTS.envVars` only
when absent (a JavaScript array, even empty, is truthy).  Note that the
source line `this.validateConstructorOptions();` is commented out, so the
constructor performs no schema validation. -/
def mkChiaTestLedger (opts : IChiaTestLedgerConstructorOptions) : LedgerConfig :=
  { imageVersion := jsOrString opts.imageVersion DEFAULTS_imageVersion
    imageName := jsOrString opts.imageName DEFAULTS_imageName
    emitContainerLogs := opts.emitContainerLogs.getD true
    envVars := opts.envVars.getD DEFAULTS_envVars }

/-- `getContainerImageName()`: the template literal
`imageName ++ ":" ++ imageVersion`; a total function. -/
def getContainerImageName (cfg : LedgerConfig) : String :=
  cfg.imageName ++ ":" ++ cfg.imageVersion

/-- The `CHIA_TEST_LEDGER_OPTIONS_JOI_SCHEMA` Joi schema:
`imageVersion: Joi.string().min(5).required()` and
`imageName: Joi.string().min(1).required()`; validation fails exactly when a
string is shorter than its minimum. -/
def CHIA_TEST_LEDGER_OPTIONS_JOI_SCHEMA_validate
    (imageVersion imageName : String) : Except String Unit :=
  if imageVersion.length < 5 then
    Except.error "ValidationError: imageVersion length must be at least 5 characters long"
  else if imageName.length < 1 then
    Except.error "ValidationError: imageName length must be at least 1 characters long"
  else Except.ok ()

/-- `validateConstructorOptions()`: runs the Joi schema over the stored
`imageVersion`/`imageName` and throws on a validation error.  The method is
defined in the source but its only call site is commented out. -/
def validateConstructorOptions (cfg : LedgerConfig) : Except String Unit :=
  CHIA_TEST_LEDGER_OPTIONS_JOI_SCHEMA_validate cfg.imageVersion cfg.imageName

/-- The two mutable fields of the instance:
`private container: Container | undefined` and
`private containerId: string | undefined`. -/
structure LedgerState where
  container : Option Container
  containerId : Option String
deriving DecidableEq, Repr

/-- State right after construction: both mutable fields are `undefined`. -/
def initialState : LedgerState := { container := none, containerId := none }

/-- Modelled from the spec: `Checks.nonBlankString` lives in the
`cactus-common` package, which is part of the repository but not among the
provided sources.  Per the spec, `getContainerId` "fails with
`NotStartedError` if no container id is recorded (blank/unset)", so the
check passes exactly when the value is a set string that is not blank, a
blank string being one whose characters are all whitespace (so in
particular the empty string).  Blankness is modelled over the character
list so that concrete instances evaluate inside the kernel. -/
def nonBlankString (v : Option String) : Bool :=
  match v with
  | none => false
  | some s => !(s.data.all Char.isWhitespace)

/-- Message of the exception thrown by `Checks.nonBlankString` inside
`getContainerId()` (the exact wording is produced by `cactus-common`). -/
def notStartedErrorMsg : String :=
  "ChiaTestLedger.getContainerId()::containerId is blank or unset"

/-- `getContainerId()`: `Checks.nonBlankString(this.containerId, ...)` then
`return this.containerId as string`.  The check throwing is modelled as
`Except.error`. -/
def getContainerId (s : LedgerState) : Except String String :=
  if nonBlankString s.containerId then Except.ok (s.containerId.getD "")
  else Except.error notStartedErrorMsg

/-- Message of the synchronous throw in `getContainer()`. -/
def getContainerErrorMsg : String :=
  "ChiaTestLedger.getContainer() container not set on this instance yet."

/-- `getContainer()`: throws synchronously when `this.container` is unset,
otherwise returns it. -/
def getContainer (s : LedgerState) : Except String Container :=
  match s.container with
  | none => Except.error getContainerErrorMsg
  | some c => Except.ok c

/-- One call issued to the container runtime, for recording traces. -/
inductive RuntimeCall where
  | stopContainer (id : String)
  | removeContainer (id : String)
  | runImage (imageFqn : String)
deriving DecidableEq, Repr

/-- Decidable equality for `Except`, needed so that outcome values can be
compared by `decide` in concrete evaluations. -/
instance instDecEqExcept {ε α : Type} [DecidableEq ε] [DecidableEq α] :
    DecidableEq (Except ε α) := fun a b =>
  match a, b with
  | Except.ok x, Except.ok y =>
    if h : x = y then Decidable.isTrue (by rw [h])
    else Decidable.isFalse (fun hc => h (by injection hc))
  | Except.error x, Except.error y =>
    if h : x = y then Decidable.isTrue (by rw [h])
    else Decidable.isFalse (fun hc => h (by injection hc))
  | Except.ok _, Except.error _ => Decidable.isFalse (fun hc => by injection hc)
  | Except.error _, Except.ok _ => Decidable.isFalse (fun hc => by injection hc)

/-- Result of calling `stop()`.  The method is not `async` and evaluates
`this.getContainer()` before anything else, so when the container is unset
the exception propagates synchronously to the caller instead of being
wrapped in a rejected promise; otherwise the promise of `Containers.stop`
is returned. -/
inductive StopOutcome where
  | syncThrow (msg : String)
  | promise (result : Except String Unit)
deriving DecidableEq, Repr

/-- Modelled from the spec: `Containers.stop` (in cactus-test-tooling
`common/containers.ts`, part of the repository but not among the provided
sources) "issues a stop request to the runtime collaborator"; its promise is
taken to settle successfully here, the claims only depend on the request
being issued. -/
def containersStop (c : Container) : Except String Unit × List RuntimeCall :=
  (Except.ok (), [RuntimeCall.stopContainer c.id])

/-- `stop()`: outcome, runtime calls issued, and resulting state (the method
mutates neither `container` nor `containerId`). -/
def stop (s : LedgerState) : StopOutcome × List RuntimeCall × LedgerState :=
  match getContainer s with
  | Except.error msg => (StopOutcome.syncThrow msg, [], s)
  | Except.ok c =>
    let r := containersStop c
    (StopOutcome.promise r.1, r.2, s)

/-- Message of the rejection produced by `destroy()` on a never-started
handle. -/
def destroyNoContainerMsg : String :=
  "ChiaTestLedger.destroy() Container was never created, nothing to destroy."

/-- `destroy()`: when `this.container` is set it returns
`this.container.remove()` (a remove request to the runtime) and leaves both
mutable fields untouched; otherwise it returns a rejected promise.  Result,
runtime calls issued, resulting state. -/
def destroy (s : LedgerState) : Except String Unit × List RuntimeCall × LedgerState :=
  match s.container with
  | some c => (Except.ok (), [RuntimeCall.removeContainer c.id], s)
  | none => (Except.error destroyNoContainerMsg, [], s)

/-- The runtime calls issued by the front part of `start()`: when a previous
container reference exists, `await this.container.stop()` then
`await this.container.remove()` complete before `docker.run(imageFqn, ...)`
is issued; the list order records this sequencing of awaited calls. -/
def startRuntimeCalls (s : LedgerState) (cfg : LedgerConfig) : List RuntimeCall :=
  match s.container with
  | some c =>
    [RuntimeCall.stopContainer c.id, RuntimeCall.removeContainer c.id,
     RuntimeCall.runImage (getContainerImageName cfg)]
  | none => [RuntimeCall.runImage (getContainerImageName cfg)]

/-- String suffix test, modelled over the character list of the string so
that concrete instances evaluate inside the kernel; it carries the meaning
of `String.endsWith` (the string ends with the given suffix). -/
def strEndsWith (s post : String) : Bool :=
  post.data.isSuffixOf s.data

/-- The health predicate of the polling loop:
`containerInfo.Status.endsWith("(healthy)")`. -/
def isHealthy (info : ContainerInfo) : Bool :=
  strEndsWith info.Status "(healthy)"

/-- The do/while health-polling loop of `start()`, run against a simulated
runtime answering the query at iteration `i` with `statuses i`.  Each
iteration queries once; when the status is healthy the loop ends with no
further wait, otherwise it sleeps one second and repeats.  `q` and `w` count
queries and one-second waits so far; `fuel` bounds the iterations observed,
`none` meaning the loop has not terminated within `fuel` iterations. -/
def healthLoop (statuses : Nat → ContainerInfo) :
    Nat → Nat → Nat → Nat → Option (Nat × Nat)
  | 0, _, _, _ => none
  | fuel + 1, i, q, w =>
    if isHealthy (statuses i) then some (q + 1, w)
    else healthLoop statuses fuel (i + 1) (q + 1) (w + 1)

/-- The health loop started from its initial counters. -/
def runHealthLoop (statuses : Nat → ContainerInfo) (fuel : Nat) :
    Option (Nat × Nat) :=
  healthLoop statuses fuel 0 0 0

/-- How the promise returned by `start()` ends up settled by the
started-event handler. -/
inductive Settlement where
  | resolved (c : Container)
  | rejected (msg : String)
  | pending
deriving DecidableEq, Repr

/-- The `once("start", async (container) => ...)` handler of `start()`.  It
first records `container` and `containerId` on the instance.  When
`emitContainerLogs` is set it then awaits `Containers.streamLogs` (a
repository function outside the provided sources, so its outcome is a
parameter) OUTSIDE the try/catch block: an exception there escapes the
async handler before either `resolve` or `reject` is reached, leaving the
outer promise pending.  The try block runs the health loop, resolving with
the container on success and rejecting with the caught exception when a
poll query throws (`pollOutcome` abstracts that loop outcome). -/
def startedHandler (cfg : LedgerConfig) (streamLogs : Except String Unit)
    (pollOutcome : Except String Unit) (c : Container) :
    Settlement × LedgerState :=
  let s1 : LedgerState := { container := some c, containerId := some c.id }
  if cfg.emitContainerLogs then
    match streamLogs with
    | Except.error _ => (Settlement.pending, s1)
    | Except.ok _ =>
      match pollOutcome with
      | Except.ok _ => (Settlement.resolved c, s1)
      | Except.error e => (Settlement.rejected e, s1)
  else
    match pollOutcome with
    | Except.ok _ => (Settlement.resolved c, s1)
    | Except.error e => (Settlement.rejected e, s1)

/-- The operations that can touch the mutable fields of a handle.  The
started-event handler is the only writer; `stop()` and `destroy()` read the
fields but never write them (the front part of `start()` also leaves them
unchanged). -/
inductive Op where
  | startHandler (c : Container) (streamLogs : Except String Unit)
      (pollOutcome : Except String Unit)
  | stopOp
  | destroyOp
deriving DecidableEq, Repr

/-- Whether an operation is the started-event handler. -/
def Op.isStartHandler : Op → Bool
  | Op.startHandler _ _ _ => true
  | _ => false

/-- Effect of one operation on the mutable fields. -/
def applyOp (cfg : LedgerConfig) (s : LedgerState) : Op → LedgerState
  | Op.startHandler c streamLogs pollOutcome =>
    (startedHandler cfg streamLogs pollOutcome c).2
  | Op.stopOp => (stop s).2.2
  | Op.destroyOp => (destroy s).2.2

/-- Run a sequence of operations from a state. -/
def runOps (cfg : LedgerConfig) (s : LedgerState) (ops : List Op) : LedgerState :=
  ops.foldl (applyOp cfg) s

/-- JavaScript property access `Networks[name]` on the association list. -/
def jsObjectGet (nets : List (String × Network)) (name : String) : Option Network :=
  (nets.find? (fun p => p.1 == name)).map Prod.snd

/-- Message of the throw in `getContainerIpAddress()` when the container has
no attached networks (the source fnTag says BesuTestLedger, copied as-is). -/
def noNetworkErrorMsg : String :=
  "BesuTestLedger#getContainerIpAddress() container not connected to any networks"

/-- `getContainerIpAddress()` applied to the `ContainerInfo` the runtime
reports: takes `Object.keys(NetworkSettings.Networks)`, throws when there
are no names, otherwise returns
`NetworkSettings.Networks[networkNames[0]].IPAddress`.  The second error
branch models the JavaScript TypeError on a key that resolves to nothing;
it is unreachable because the first key always resolves. -/
def getContainerIpAddress (info : ContainerInfo) : Except String String :=
  let networks := info.NetworkSettings.Networks
  match networks.map Prod.fst with
  | [] => Except.error noNetworkErrorMsg
  | name0 :: _ =>
    match jsObjectGet networks name0 with
    | some net => Except.ok net.IPAddress
    | none => Except.error "TypeError: undefined network entry"

/-- Sample `ContainerInfo` with a given status, for concrete evaluations. -/
def demoInfo (status : String) : ContainerInfo :=
  { Id := "c-123", Status := status, State := "running",
    NetworkSettings := { Networks := [] } }

/-- Simulated runtime whose status sequence is starting, starting,
running (healthy), as in the testable property of the spec. -/
def demoStatuses : Nat → ContainerInfo := fun i =>
  if i < 2 then demoInfo "starting" else demoInfo "running (healthy)"

/-- Simulated runtime that never reports a healthy status. -/
def stalledStatuses : Nat → ContainerInfo := fun _ => demoInfo "starting"

/-- Configuration produced by the constructor with empty options. -/
def cfgDefault : LedgerConfig := mkChiaTestLedger {}

/-- State of the handle right after a successful started-event handler. -/
def readyStateDemo : LedgerState :=
  (startedHandler cfgDefault (Except.ok ()) (Except.ok ()) { id := "c-123" }).2

/-- When the first `n` statuses (from index `i`) are unhealthy and the one
at `i + n` is healthy, the loop performs `n + 1` further queries and `n`
further waits. -/
theorem healthLoop_first_healthy (st : Nat → ContainerInfo) :
    ∀ (n fuel i q w : Nat),
      (∀ k, k < n → isHealthy (st (i + k)) = false) →
      isHealthy (st (i + n)) = true →
      n + 1 ≤ fuel →
      healthLoop st fuel i q w = some (q + n + 1, w + n) := by
  intro n
  induction n with
  | zero =>
    intro fuel i q w hk hh hf
    obtain ⟨fuel, rfl⟩ : ∃ m, fuel = m + 1 := ⟨fuel - 1, by omega⟩
    have h0 : isHealthy (st i) = true := by simpa using hh
    simp [healthLoop, h0]
  | succ n ih =>
    intro fuel i q w hk hh hf
    obtain ⟨fuel, rfl⟩ : ∃ m, fuel = m + 1 := ⟨fuel - 1, by omega⟩
    have h0 : isHealthy (st i) = false := by
      simpa using hk 0 (Nat.succ_pos n)
    rw [healthLoop, h0]
    simp only [Bool.false_eq_true, if_false]
    have hk1 : ∀ k, k < n → isHealthy (st (i + 1 + k)) = false := by
      intro k hkn
      have hx := hk (k + 1) (by omega)
      have he : i + (k + 1) = i + 1 + k := by omega
      rwa [he] at hx
    have hh1 : isHealthy (st (i + 1 + n)) = true := by
      have he : i + (n + 1) = i + 1 + n := by omega
      rwa [he] at hh
    have hr := ih fuel (i + 1) (q + 1) (w + 1) hk1 hh1 (by omega)
    rw [hr]
    have e1 : q + 1 + n + 1 = q + (n + 1) + 1 := by omega
    have e2 : w + 1 + n = w + (n + 1) := by omega
    rw [e1, e2]

/-- When no status is ever healthy the loop does not terminate within any
amount of fuel. -/
theorem healthLoop_never_healthy (st : Nat → ContainerInfo)
    (h : ∀ k, isHealthy (st k) = false) :
    ∀ fuel i q w, healthLoop st fuel i q w = none := by
  intro fuel
  induction fuel with
  | zero => intro i q w; rfl
  | succ fuel ih =>
    intro i q w
    rw [healthLoop, h i]
    simp only [Bool.false_eq_true, if_false]
    exact ih (i + 1) (q + 1) (w + 1)

/-- C1: the health-polling loop of start() resolves exactly when a queried
status ends with the suffix (healthy); when the first healthy entry of the
status sequence is the n-th (1-based), the loop performs exactly n queries
and n - 1 one-second waits (a wait after each unhealthy query, none after
the healthy one), and on a sequence with no healthy entry the loop never
terminates, whatever iteration bound is observed. -/
theorem C1_health_polling_counts :
    (∀ (st : Nat → ContainerInfo) (n fuel : Nat),
        0 < n →
        (∀ k, k + 1 < n → isHealthy (st k) = false) →
        isHealthy (st (n - 1)) = true →
        n ≤ fuel →
        runHealthLoop st fuel = some (n, n - 1)) ∧
    (∀ st : Nat → ContainerInfo,
        (∀ k, isHealthy (st k) = false) →
        ∀ fuel, runHealthLoop st fuel = none) := by
  constructor
  · intro st n fuel hn hk hh hf
    obtain ⟨m, rfl⟩ : ∃ m, n = m + 1 := ⟨n - 1, by omega⟩
    have hk0 : ∀ k, k < m → isHealthy (st (0 + k)) = false := by
      intro k hkm
      have hx := hk k (by omega)
      simpa using hx
    have hh0 : isHealthy (st (0 + m)) = true := by simpa using hh
    have hr := healthLoop_first_healthy st m fuel 0 0 0 hk0 hh0 (by omega)
    simpa [runHealthLoop] using hr
  · intro st h fuel
    exact healthLoop_never_healthy st h fuel 0 0 0

/-- C1 witness: on the spec sequence starting, starting, running (healthy)
the loop answers after 3 queries and 2 waits; on an always-starting
sequence it has not terminated after 5 iterations. -/
theorem C1_health_polling_counts_witness :
    runHealthLoop demoStatuses 3 = some (3, 2) ∧
    runHealthLoop stalledStatuses 5 = none := by
  constructor
  · refine C1_health_polling_counts.1 demoStatuses 3 3 (by decide) ?_ (by decide) (by decide)
    intro k hk
    have hcase : k = 0 ∨ k = 1 := by omega
    rcases hcase with rfl | rfl <;> decide
  · exact C1_health_polling_counts.2 stalledStatuses (fun k => rfl) 5

/-- `stop()` never writes the mutable fields. -/
theorem stop_preserves_state (s : LedgerState) : (stop s).2.2 = s := by
  cases h : s.container <;> simp [stop, getContainer, h, containersStop]

/-- `destroy()` never writes the mutable fields. -/
theorem destroy_preserves_state (s : LedgerState) : (destroy s).2.2 = s := by
  cases h : s.container <;> simp [destroy, h]

/-- The started-event handler always leaves the instance with both mutable
fields set from the received container, whatever the settlement. -/
theorem startedHandler_state (cfg : LedgerConfig) (streamLogs pollOutcome : Except String Unit)
    (c : Container) :
    (startedHandler cfg streamLogs pollOutcome c).2 =
      { container := some c, containerId := some c.id } := by
  cases h : cfg.emitContainerLogs <;> cases streamLogs <;> cases pollOutcome <;>
    simp [startedHandler, h]

/-- A sequence of operations containing no started-event handler leaves the
mutable fields exactly as they were. -/
theorem runOps_no_start_preserves (cfg : LedgerConfig) :
    ∀ (ops : List Op) (s : LedgerState),
      (∀ op ∈ ops, op.isStartHandler = false) →
      runOps cfg s ops = s := by
  intro ops
  induction ops with
  | nil => intro s _; rfl
  | cons op ops ih =>
    intro s h
    have hop : op.isStartHandler = false := h op (List.mem_cons_self op ops)
    have hops : ∀ o ∈ ops, o.isStartHandler = false :=
      fun o ho => h o (List.mem_cons_of_mem op ho)
    have hstep : runOps cfg s (op :: ops) = runOps cfg (applyOp cfg s op) ops := rfl
    rw [hstep]
    cases op with
    | startHandler c streamLogs pollOutcome => simp [Op.isStartHandler] at hop
    | stopOp =>
      rw [show applyOp cfg s Op.stopOp = (stop s).2.2 from rfl, stop_preserves_state]
      exact ih s hops
    | destroyOp =>
      rw [show applyOp cfg s Op.destroyOp = (destroy s).2.2 from rfl,
        destroy_preserves_state]
      exact ih s hops

/-- C2: when start() is called while a container reference is set, the stop
request and then the remove request for the prior container are issued and
awaited, in that order, before the new run request goes to the runtime;
without a prior reference, only the run request is issued. -/
theorem C2_restart_stop_remove_before_run :
    ∀ (s : LedgerState) (cfg : LedgerConfig),
      (∀ c : Container, s.container = some c →
        startRuntimeCalls s cfg =
          [RuntimeCall.stopContainer c.id, RuntimeCall.removeContainer c.id,
           RuntimeCall.runImage (getContainerImageName cfg)]) ∧
      (s.container = none →
        startRuntimeCalls s cfg =
          [RuntimeCall.runImage (getContainerImageName cfg)]) := by
  intro s cfg
  constructor
  · intro c hc; simp [startRuntimeCalls, hc]
  · intro hc; simp [startRuntimeCalls, hc]

/-- C2 witness: concrete traces for a handle with and without a prior
container reference. -/
theorem C2_restart_stop_remove_before_run_witness :
    startRuntimeCalls readyStateDemo cfgDefault =
      [RuntimeCall.stopContainer "c-123", RuntimeCall.removeContainer "c-123",
       RuntimeCall.runImage (getContainerImageName cfgDefault)] ∧
    startRuntimeCalls initialState cfgDefault =
      [RuntimeCall.runImage (getContainerImageName cfgDefault)] :=
  ⟨(C2_restart_stop_remove_before_run readyStateDemo cfgDefault).1 { id := "c-123" } rfl,
   (C2_restart_stop_remove_before_run initialState cfgDefault).2 rfl⟩

/-- C3 counterexample: after a successful start, destroy() succeeds but the
recorded container reference is still set afterwards, refuting the part of
the claim that says the reference is absent after destroy. -/
theorem C3_counterexample_reference_not_cleared :
    (destroy readyStateDemo).1 = Except.ok () ∧
    (destroy readyStateDemo).2.2.container = some { id := "c-123" } ∧
    (destroy readyStateDemo).2.2.container ≠ none := by
  refine ⟨rfl, rfl, ?_⟩
  decide

/-- C3 amended: destroy() on a never-started handle rejects with the
no-container error and changes nothing; destroy() with a container
reference set succeeds, issues exactly one remove request for it, and
leaves the recorded container reference set (it is not cleared). -/
theorem C3_destroy_behavior :
    (∀ s : LedgerState, s.container = none →
        (destroy s).1 = Except.error destroyNoContainerMsg ∧ (destroy s).2.2 = s) ∧
    (∀ (s : LedgerState) (c : Container), s.container = some c →
        (destroy s).1 = Except.ok () ∧
        (destroy s).2.1 = [RuntimeCall.removeContainer c.id] ∧
        (destroy s).2.2.container = some c) := by
  constructor
  · intro s h; simp [destroy, h]
  · intro s c h; simp [destroy, h]

/-- C3 witness: both branches of the amended destroy behavior at concrete
states. -/
theorem C3_destroy_behavior_witness :
    (destroy initialState).1 = Except.error destroyNoContainerMsg ∧
    (destroy readyStateDemo).1 = Except.ok () ∧
    (destroy readyStateDemo).2.1 = [RuntimeCall.removeContainer "c-123"] ∧
    (destroy readyStateDemo).2.2.container = some { id := "c-123" } :=
  ⟨(C3_destroy_behavior.1 initialState rfl).1,
   (C3_destroy_behavior.2 readyStateDemo { id := "c-123" } rfl).1,
   (C3_destroy_behavior.2 readyStateDemo { id := "c-123" } rfl).2.1,
   (C3_destroy_behavior.2 readyStateDemo { id := "c-123" } rfl).2.2⟩

/-- C4: getContainerIpAddress() fails with the no-network error exactly when
the network mapping is empty, and otherwise returns the IPAddress of the
first network in the enumeration order of the runtime. -/
theorem C4_first_network_ip :
    (∀ info : ContainerInfo, info.NetworkSettings.Networks = [] →
        getContainerIpAddress info = Except.error noNetworkErrorMsg) ∧
    (∀ (info : ContainerInfo) (name : String) (net : Network)
        (rest : List (String × Network)),
        info.NetworkSettings.Networks = (name, net) :: rest →
        getContainerIpAddress info = Except.ok net.IPAddress) := by
  constructor
  · intro info h; simp [getContainerIpAddress, h]
  · intro info name net rest h
    simp [getContainerIpAddress, h, jsObjectGet]

/-- C4 witness: the bridge/custom example of the claim returns the bridge
address, and an empty mapping fails. -/
theorem C4_first_network_ip_witness :
    getContainerIpAddress
        { Id := "c-123", Status := "running (healthy)", State := "running",
          NetworkSettings := { Networks :=
            [("bridge", { IPAddress := "172.17.0.2" }),
             ("custom", { IPAddress := "10.0.0.5" })] } } =
      Except.ok "172.17.0.2" ∧
    getContainerIpAddress (demoInfo "running") = Except.error noNetworkErrorMsg :=
  ⟨C4_first_network_ip.2 _ "bridge" { IPAddress := "172.17.0.2" }
      [("custom", { IPAddress := "10.0.0.5" })] rfl,
   C4_first_network_ip.1 (demoInfo "running") rfl⟩

/-- C5: getContainerId() fails with the not-started error whenever the
recorded container id is unset or blank (every character whitespace, the
empty string included) — in particular in any state reached from
construction without the started-event handler running — and otherwise
returns the recorded id; the id is unchanged by any sequence of operations
that contains no started-event handler, so repeated calls in the Ready
state return the same id. -/
theorem C5_getContainerId_spec :
    (∀ s : LedgerState, s.containerId = none →
        getContainerId s = Except.error notStartedErrorMsg) ∧
    (∀ (s : LedgerState) (v : String), s.containerId = some v →
        v.data.all Char.isWhitespace = true →
        getContainerId s = Except.error notStartedErrorMsg) ∧
    (∀ (s : LedgerState) (v : String), s.containerId = some v →
        v.data.all Char.isWhitespace = false →
        getContainerId s = Except.ok v) ∧
    (∀ (cfg : LedgerConfig) (s : LedgerState) (ops : List Op),
        (∀ op ∈ ops, op.isStartHandler = false) →
        getContainerId (runOps cfg s ops) = getContainerId s) := by
  refine ⟨?_, ?_, ?_, ?_⟩
  · intro s h; simp [getContainerId, nonBlankString, h]
  · intro s v h hb; simp [getContainerId, nonBlankString, h, hb]
  · intro s v h hb; simp [getContainerId, nonBlankString, h, hb]
  · intro cfg s ops h
    rw [runOps_no_start_preserves cfg ops s h]

/-- C5 witness: the four clauses at concrete states — fresh handle, blank
id, ready handle, and a ready handle after stop and destroy. -/
theorem C5_getContainerId_spec_witness :
    getContainerId initialState = Except.error notStartedErrorMsg ∧
    getContainerId { container := none, containerId := some "  " } =
      Except.error notStartedErrorMsg ∧
    getContainerId readyStateDemo = Except.ok "c-123" ∧
    getContainerId (runOps cfgDefault readyStateDemo [Op.stopOp, Op.destroyOp]) =
      getContainerId readyStateDemo :=
  ⟨C5_getContainerId_spec.1 initialState rfl,
   C5_getContainerId_spec.2.1 { container := none, containerId := some "  " } "  " rfl
     (by decide),
   C5_getContainerId_spec.2.2.1 readyStateDemo "c-123" rfl (by decide),
   C5_getContainerId_spec.2.2.2 cfgDefault readyStateDemo [Op.stopOp, Op.destroyOp]
     (by intro op hop; fin_cases hop <;> rfl)⟩

/-- C6: getContainerImageName() is the pure, total concatenation of the
stored image name, a colon, and the stored tag, where the stored fields
come from the options with the fixed defaults substituted when an option is
omitted (or empty, which JavaScript treats as falsy), and an explicit
non-empty option is kept verbatim. -/
theorem C6_image_fqn :
    ∀ opts : IChiaTestLedgerConstructorOptions,
      getContainerImageName (mkChiaTestLedger opts) =
        (mkChiaTestLedger opts).imageName ++ ":" ++ (mkChiaTestLedger opts).imageVersion ∧
      (opts.imageName = none → (mkChiaTestLedger opts).imageName = DEFAULTS_imageName) ∧
      (opts.imageVersion = none →
        (mkChiaTestLedger opts).imageVersion = DEFAULTS_imageVersion) ∧
      (∀ v : String, opts.imageName = some v → v ≠ "" →
        (mkChiaTestLedger opts).imageName = v) ∧
      (∀ v : String, opts.imageVersion = some v → v ≠ "" →
        (mkChiaTestLedger opts).imageVersion = v) := by
  intro opts
  refine ⟨rfl, ?_, ?_, ?_, ?_⟩
  · intro h; simp [mkChiaTestLedger, jsOrString, h]
  · intro h; simp [mkChiaTestLedger, jsOrString, h]
  · intro v h hv; simp [mkChiaTestLedger, jsOrString, h, hv]
  · intro v h hv; simp [mkChiaTestLedger, jsOrString, h, hv]

/-- C6 witness: default substitution with empty options and verbatim use of
explicit options. -/
theorem C6_image_fqn_witness :
    getContainerImageName (mkChiaTestLedger {}) =
      (mkChiaTestLedger {}).imageName ++ ":" ++ (mkChiaTestLedger {}).imageVersion ∧
    (mkChiaTestLedger {}).imageName = DEFAULTS_imageName ∧
    (mkChiaTestLedger {}).imageVersion = DEFAULTS_imageVersion ∧
    (mkChiaTestLedger { imageName := some "myimg", imageVersion := some "v9.9.9" }).imageName =
      "myimg" ∧
    (mkChiaTestLedger { imageName := some "myimg", imageVersion := some "v9.9.9" }).imageVersion =
      "v9.9.9" :=
  ⟨(C6_image_fqn {}).1, (C6_image_fqn {}).2.1 rfl, (C6_image_fqn {}).2.2.1 rfl,
   (C6_image_fqn { imageName := some "myimg", imageVersion := some "v9.9.9" }).2.2.2.1
     "myimg" rfl (by decide),
   (C6_image_fqn { imageName := some "myimg", imageVersion := some "v9.9.9" }).2.2.2.2
     "v9.9.9" rfl (by decide)⟩

/-- C7: in every state reachable from construction by any sequence of the
operations that can touch the mutable fields (the started-event handler of
start(), stop(), destroy()), the containerId field is set exactly when the
container reference field is set. -/
theorem C7_container_id_in_sync :
    ∀ (cfg : LedgerConfig) (ops : List Op),
      (runOps cfg initialState ops).container.isSome =
        (runOps cfg initialState ops).containerId.isSome := by
  intro cfg ops
  suffices h : ∀ (ops : List Op) (s : LedgerState),
      s.container.isSome = s.containerId.isSome →
      (runOps cfg s ops).container.isSome = (runOps cfg s ops).containerId.isSome from
    h ops initialState rfl
  intro ops
  induction ops with
  | nil => intro s hs; exact hs
  | cons op ops ih =>
    intro s hs
    have hstep : runOps cfg s (op :: ops) = runOps cfg (applyOp cfg s op) ops := rfl
    rw [hstep]
    apply ih
    cases op with
    | startHandler c streamLogs pollOutcome =>
      rw [show applyOp cfg s (Op.startHandler c streamLogs pollOutcome) =
          (startedHandler cfg streamLogs pollOutcome c).2 from rfl,
        startedHandler_state]
      rfl
    | stopOp =>
      rw [show applyOp cfg s Op.stopOp = (stop s).2.2 from rfl, stop_preserves_state]
      exact hs
    | destroyOp =>
      rw [show applyOp cfg s Op.destroyOp = (destroy s).2.2 from rfl,
        destroy_preserves_state]
      exact hs

/-- C8: the constructor does keep the tag non-empty through the default
fallback, but it performs no minimum-length sanity check: the call to
validateConstructorOptions is commented out in the source, so construction
with the too-short explicit imageVersion v1 succeeds and stores it, even
though the Joi schema the class carries (min length 5) rejects exactly that
value when run. -/
theorem C8_short_version_accepted :
    mkChiaTestLedger { imageVersion := some "v1" } =
      { imageVersion := "v1", imageName := DEFAULTS_imageName,
        emitContainerLogs := true, envVars := DEFAULTS_envVars } ∧
    validateConstructorOptions (mkChiaTestLedger { imageVersion := some "v1" }) =
      Except.error "ValidationError: imageVersion length must be at least 5 characters long" ∧
    (mkChiaTestLedger {}).imageVersion = DEFAULTS_imageVersion ∧
    (mkChiaTestLedger { imageVersion := some "" }).imageVersion = DEFAULTS_imageVersion := by
  refine ⟨rfl, ?_, rfl, rfl⟩
  rfl

/-- C9 counterexample: with emitContainerLogs enabled and the log-streaming
call throwing, the started-event handler leaves the start() promise pending
— it does not reject with the exception as the claim states. -/
theorem C9_counterexample_pending_not_rejected :
    (startedHandler cfgDefault (Except.error "stream failure") (Except.ok ())
        { id := "c-123" }).1 = Settlement.pending ∧
    (startedHandler cfgDefault (Except.error "stream failure") (Except.ok ())
        { id := "c-123" }).1 ≠ Settlement.rejected "stream failure" := by
  refine ⟨rfl, ?_⟩
  decide

/-- C9 amended: when emitContainerLogs is enabled and the log-streaming call
inside the started-event handler throws, the exception escapes the async
handler before the try block, so neither resolve nor reject runs: the
promise returned by start() never settles (stays pending), whatever the
health loop would have done. -/
theorem C9_stream_failure_leaves_start_pending :
    ∀ (cfg : LedgerConfig) (e : String) (pollOutcome : Except String Unit)
      (c : Container),
      cfg.emitContainerLogs = true →
      (startedHandler cfg (Except.error e) pollOutcome c).1 = Settlement.pending := by
  intro cfg e pollOutcome c h
  simp [startedHandler, h]

/-- C9 witness: a concrete stream failure under the default configuration
leaves the promise pending. -/
theorem C9_stream_failure_leaves_start_pending_witness :
    (startedHandler cfgDefault (Except.error "boom") (Except.ok ()) { id := "c-9" }).1 =
      Settlement.pending :=
  C9_stream_failure_leaves_start_pending cfgDefault "boom" (Except.ok ())
    { id := "c-9" } rfl

/-- C10: stop() on a handle whose container reference is unset throws
synchronously from getContainer() with the container-not-set message —
before any promise is produced and before any runtime call is issued — and
leaves the mutable fields unchanged. -/
theorem C10_stop_never_started :
    ∀ s : LedgerState, s.container = none →
      (stop s).1 = StopOutcome.syncThrow getContainerErrorMsg ∧
      (stop s).2.1 = [] ∧
      (stop s).2.2 = s := by
  intro s h
  simp [stop, getContainer, h]

/-- C10 witness: the synchronous throw on a freshly constructed handle. -/
theorem C10_stop_never_started_witness :
    (stop initialState).1 = StopOutcome.syncThrow getContainerErrorMsg ∧
    (stop initialState).2.1 = [] ∧
    (stop initialState).2.2 = initialState :=
  C10_stop_never_started initialState rfl

end Chia
